import Mathlib

/-!
Verification of the chat backend in `src/main.py` (FastAPI, in-memory stores).

The program keeps four module-level mutable stores:

* `users_db    : dict username → user record`   (insertion ordered)
* `chats_db    : dict chat_id → chat record`
* `messages_db : dict message_id → message record`  (keys only ever grow)
* `active_connections : dict user_id → WebSocket`

We embed these as Lean lists kept in dict insertion order (Python dicts
preserve insertion order; `messages_db` keys are assigned `max+1` so its
iteration order is id-ascending), and each endpoint body as a pure function
`St → args → St × Res α`: the returned state reflects every mutation the
Python body performed before returning or before an exception propagated,
and `Res.err` models an exception/HTTPException propagating out of the body.

Python's `datetime.utcnow()` is modelled by an explicit `now : Nat` argument
with no monotonicity assumption.  The bcrypt password hash is an external
collaborator and is not modelled (no claim mentions it); the read-only
listing endpoint `get_user_chats` and the auth routes are likewise outside
every claim and are omitted.

Three names used by the source are never imported there: `json` in
`websocket_endpoint`, `WebSocketDisconnect` in its except clause, and
`Response` in `delete_user`.  Where the missing name only changes what is
reported after the state change (`Response`: `NameError` after the deletion
already happened) we model the state faithfully and note the slip; where it
changes the state transition itself (`WebSocketDisconnect`: evaluating the
except clause raises `NameError` before the pop can run, so no registry
entry is ever removed on disconnect) the model follows the runtime
behavior.
-/

/-- A message record, one value of `messages_db` (`main.py` lines 383-390 and
524-531).  `id` is the dict key, also stored in the record. -/
structure Message where
  id : Nat
  content : String
  sender_id : Int
  receiver_id : Int
  timestamp : Nat
  is_read : Bool
deriving Repr, DecidableEq

/-- A chat record, one value of `chats_db` (`main.py` lines 412-418). -/
structure ChatRec where
  id : Int
  user1_id : Int
  user2_id : Int
  last_message : Option Message
  unread_count : Int
deriving Repr, DecidableEq

/-- A user record, one value of `users_db` (keyed by `username`); the bcrypt
`hashed_password` field is opaque external data and is not carried. -/
structure UserRec where
  id : Int
  username : String
  email : String
  first_name : Option String
  last_name : Option String
  is_active : Bool
deriving Repr, DecidableEq

/-- A live WebSocket handle.  `writable = false` models a channel whose
`send_json` raises (the peer is gone / the socket is closed). -/
structure Channel where
  cid : Nat
  writable : Bool
deriving Repr, DecidableEq

/-- An inbound real-time event, the decoded JSON dict handed to
`handle_websocket_message` (`data.get('type')`, `data.get('receiver_id')`,
`data.get('content')`). -/
structure WsEvent where
  type : String
  receiver_id : Int
  content : String
deriving Repr, DecidableEq

/-- Failure outcomes of the endpoint bodies: `HTTPException`s raised by the
code, and exceptions propagating from a WebSocket `send_json` on a dead
channel. -/
inductive Err where
  | receiverNotFound
  | userNotFound
  | dupUsername
  | dupEmail
  | pushFailed
  | keyError
  | nameError
deriving Repr, DecidableEq

/-- Result of running one endpoint body: normal return or an exception
propagating out of it. -/
inductive Res (α : Type) where
  | ok : α → Res α
  | err : Err → Res α
deriving Repr, DecidableEq

/-- The four module-level stores of `main.py`, in dict insertion order. -/
structure St where
  users : List UserRec
  chats : List ChatRec
  messages : List Message
  connections : List (Int × Channel)
deriving Repr, DecidableEq

/-- The state before any operation (all stores empty). -/
def St.empty : St := ⟨[], [], [], []⟩

/-! ### Python's `hash(frozenset({u1, u2}))`

`get_or_create_chat` derives the chat id as `hash(frozenset({user1_id,
user2_id}))` (line 409).  We reproduce CPython's algorithm: the hash of an
`int` is its value modulo `2^61 - 1 = 2305843009213693951` (sign preserved, `-1` mapped to `-2`),
and `frozenset_hash` (Objects/setobject.c) XORs shuffled member hashes —
which is what makes the result independent of element order — then mixes in
the size and disperses, all in 64-bit unsigned arithmetic. -/

/-- CPython `hash` of an `int` (sign-preserving value mod `2^61 - 1`,
with `-1` reserved as an error code and replaced by `-2`). -/
def pyHashInt (n : Int) : Int :=
  if 0 ≤ n then n % 2305843009213693951
  else
    let m : Int := -((-n) % 2305843009213693951)
    if m = -1 then -2 else m

/-- Reinterpret a signed `Py_hash_t` as the unsigned `Py_uhash_t`. -/
def toU64 (i : Int) : Nat := (i % 18446744073709551616).toNat

/-- Reinterpret an unsigned 64-bit value as a signed `Py_hash_t`. -/
def toI64 (h : Nat) : Int :=
  if h < 9223372036854775808 then (h : Int) else (h : Int) - 18446744073709551616

/-- CPython `_shuffle_bits` from Objects/setobject.c. -/
def shuffleBits (h : Nat) : Nat :=
  (((h ^^^ 89869747) ^^^ ((h <<< 16) % 18446744073709551616)) * 3644798167) %
    18446744073709551616

/-- The tail of CPython's `frozenset_hash`: factor in the number of active
entries, disperse, reserve `-1`, and reduce to a signed `Py_hash_t`. -/
def setMix (h1 len : Nat) : Int :=
  let h2 : Nat := h1 ^^^ (((len + 1) * 1927868237) % 18446744073709551616)
  let h3 : Nat := h2 ^^^ ((h2 >>> 11) ^^^ (h2 >>> 25))
  let h4 : Nat := (h3 * 69069 + 907133923) % 18446744073709551616
  toI64 (if h4 = 18446744073709551615 then 590923713 else h4)

/-- CPython `hash(frozenset({a, b}))`: XOR of shuffled member hashes
(`{a, a}` has a single member), then `setMix`. -/
def frozensetHash2 (a b : Int) : Int :=
  let elems : List Int := if a = b then [a] else [a, b]
  setMix (elems.foldl (fun acc e => acc ^^^ shuffleBits (toU64 (pyHashInt e))) 0)
    elems.length

/-! ### Store helpers -/

/-- Python `any(u['id'] == uid for u in users_db.values())`. -/
def userExists (s : St) (uid : Int) : Bool :=
  s.users.any (fun u => u.id == uid)

/-- Membership test `chat_id in chats_db`. -/
def chatExists (s : St) (cid : Int) : Bool :=
  s.chats.any (fun c => c.id == cid)

/-- Lookup `chats_db[chat_id]` (first record with that id; chat ids are dict keys,
hence unique in every state the program builds). -/
def chatLookup (s : St) (cid : Int) : Option ChatRec :=
  s.chats.find? (fun c => c.id == cid)

/-- Lookup `active_connections.get(user_id)` / `user_id in active_connections`. -/
def connLookup (l : List (Int × Channel)) (uid : Int) : Option Channel :=
  (l.find? (fun p => p.1 == uid)).map (fun p => p.2)

/-- Assignment `active_connections[user_id] = websocket`: a dict assignment replaces in
place if the key is present, else appends. -/
def connInsert (l : List (Int × Channel)) (uid : Int) (ch : Channel) :
    List (Int × Channel) :=
  if l.any (fun p => p.1 == uid) then
    l.map (fun p => if p.1 == uid then (uid, ch) else p)
  else l ++ [(uid, ch)]

/-- Python `max(messages_db.keys(), default=0) + 1` (lines 382 and 523). -/
def nextMsgId (msgs : List Message) : Nat :=
  (msgs.map (fun m => m.id)).foldl max 0 + 1

/-- Python `max([u["id"] for u in users_db.values()], default=0) + 1` (line 244). -/
def nextUserId (users : List UserRec) : Int :=
  (users.map (fun u => u.id)).foldl max 0 + 1

/-- Applying `unread_count = max(0, unread_count - 1)` (line 506) once per
newly-read message. -/
def decN (x : Int) : Nat → Int
  | 0 => x
  | n + 1 => decN (max 0 (x - 1)) n

/-- The filter of line 495-499: messages exchanged between `me` and
`other` in either direction. -/
def betweenPair (me other : Int) (m : Message) : Bool :=
  (m.sender_id == me && m.receiver_id == other) ||
  (m.sender_id == other && m.receiver_id == me)

/-- The read-marking of lines 502-505: a message between the pair that is
addressed to `me` and still unread gets `is_read = True`; everything else is
untouched. -/
def markFn (me other : Int) (m : Message) : Message :=
  if betweenPair me other m && m.receiver_id == me && !m.is_read then
    { m with is_read := true }
  else m

/-- Stable insertion (earlier-input elements come first among equal
timestamps), the building block of `sortByTs`. -/
def insertTs (m : Message) : List Message → List Message
  | [] => [m]
  | y :: l => if m.timestamp ≤ y.timestamp then m :: y :: l else y :: insertTs m l

/-- Python `sorted(messages, key=lambda x: x['timestamp'])` (line 508): Python's
sort is stable, and a stable sort's output is determined by the input list
and the key, so this stable insertion sort computes exactly the same list. -/
def sortByTs : List Message → List Message
  | [] => []
  | x :: l => insertTs x (sortByTs l)

/-! ### The endpoint bodies -/

/-- The helper `get_or_create_chat` (lines 407-420): chat id from the frozenset hash;
create the record with the canonical `(min, max)` pair, `last_message =
None`, `unread_count = 0` when absent. -/
def get_or_create_chat (s : St) (user1_id user2_id : Int) : St × Int :=
  let chat_id := frozensetHash2 user1_id user2_id
  if chatExists s chat_id then (s, chat_id)
  else
    ({ s with chats := s.chats ++
        [⟨chat_id, min user1_id user2_id, max user1_id user2_id, none, 0⟩] },
     chat_id)

/-- In-place update of `chats_db[cid]` (dict keys are unique, so at most one
record matches). -/
def updChat (chats : List ChatRec) (cid : Int) (f : ChatRec → ChatRec) :
    List ChatRec :=
  chats.map (fun c => if c.id == cid then f c else c)

/-- The endpoint body `send_message` (lines 513-547): 404 if the receiver id matches no user;
otherwise append the message to `messages_db`, then get-or-create the chat,
set `last_message`, increment `unread_count`, and finally `send_json` to the
receiver's connection if registered — with no exception handler, so a failed
send propagates (`Res.err .pushFailed`) after all the mutations. -/
def send_message (s : St) (sender receiver : Int) (content : String)
    (now : Nat) : St × Res Message :=
  if !userExists s receiver then (s, Res.err Err.receiverNotFound)
  else
    let mid := nextMsgId s.messages
    let msg : Message := ⟨mid, content, sender, receiver, now, false⟩
    let s1 := { s with messages := s.messages ++ [msg] }
    let p := get_or_create_chat s1 sender receiver
    let bump := fun (c : ChatRec) =>
      { c with last_message := some msg, unread_count := c.unread_count + 1 }
    let s2 := { p.1 with chats := updChat p.1.chats p.2 bump }
    let res : Res Message :=
      match connLookup s2.connections receiver with
      | some ch => if ch.writable then Res.ok msg else Res.err Err.pushFailed
      | none => Res.ok msg
    (s2, res)

/-- The handler `handle_websocket_message` (lines 374-404): only the `'message'` type
does anything; it appends the message, updates the chat, and pushes —
without ever consulting `users_db` about `receiver_id`. -/
def handle_websocket_message (s : St) (sender : Int) (ev : WsEvent)
    (now : Nat) : St × Res Unit :=
  if ev.type != "message" then (s, Res.ok ())
  else
    let mid := nextMsgId s.messages
    let msg : Message := ⟨mid, ev.content, sender, ev.receiver_id, now, false⟩
    let s1 := { s with messages := s.messages ++ [msg] }
    let p := get_or_create_chat s1 sender ev.receiver_id
    let bump := fun (c : ChatRec) =>
      { c with last_message := some msg, unread_count := c.unread_count + 1 }
    let s2 := { p.1 with chats := updChat p.1.chats p.2 bump }
    let res : Res Unit :=
      match connLookup s2.connections ev.receiver_id with
      | some ch => if ch.writable then Res.ok () else Res.err Err.pushFailed
      | none => Res.ok ()
    (s2, res)

/-- The endpoint body `get_chat_messages` (lines 487-508): get-or-create the chat, collect the
messages between the pair, flip `is_read` on each unread one addressed to the
caller while applying `max(0, unread_count - 1)` once per newly-read message,
and return the collected (now mutated) messages sorted by timestamp
(Python's stable sort). -/
def get_chat_messages (s : St) (me other : Int) : St × List Message :=
  let p := get_or_create_chat s me other
  let s1 := p.1
  let between := s1.messages.filter (betweenPair me other)
  let nNew := (between.filter (fun m => m.receiver_id == me && !m.is_read)).length
  let dec := fun (c : ChatRec) => { c with unread_count := decN c.unread_count nNew }
  let s2 := { s1 with
    messages := s1.messages.map (markFn me other),
    chats := updChat s1.chats p.2 dec }
  (s2, sortByTs (between.map (markFn me other)))

/-- The endpoint body `create_chat` (lines 429-457): 404 if the target user is absent;
otherwise get-or-create the chat and answer with the stored pair — but with
literal `'last_message': None, 'unread_count': 0` (lines 455-456), not the
stored summary.  The response carries the subset of fields the claims are
about. -/
structure ChatResponse where
  id : Int
  user1_id : Int
  user2_id : Int
  other_user_id : Int
  other_username : String
  last_message : Option Message
  unread_count : Int
deriving Repr, DecidableEq

/-- The body of the `create_chat` endpoint. -/
def create_chat (s : St) (current other_user_id : Int) : St × Res ChatResponse :=
  match s.users.find? (fun u => u.id == other_user_id) with
  | none => (s, Res.err Err.userNotFound)
  | some other =>
    let p := get_or_create_chat s current other_user_id
    match chatLookup p.1 p.2 with
    | none => (p.1, Res.err Err.keyError)
    | some chat =>
      (p.1, Res.ok ⟨p.2, chat.user1_id, chat.user2_id, other.id, other.username,
                    none, 0⟩)

/-- The endpoint body `delete_user` (lines 351-359): `next(...)` finds the
first `users_db` key — a username string — whose record has the given id;
line 354's `if not user_key` is a Python truthiness test, so both a missing
user and a matched user whose username is the empty string raise 404 with
nothing deleted; otherwise `del users_db[user_key]` removes that first
matching entry.  (The `Response(...)` on line 359 then names an unimported
symbol, so the real endpoint raises `NameError` — after the deletion has
already happened; the stores end in the same state either way.) -/
def delete_user (s : St) (uid : Int) : St × Res Unit :=
  match s.users.find? (fun u => u.id == uid) with
  | none => (s, Res.err Err.userNotFound)
  | some u =>
    if u.username = "" then (s, Res.err Err.userNotFound)
    else ({ s with users := s.users.eraseP (fun v => v.id == uid) }, Res.ok ())

/-- The endpoint body `register_user` (lines 230-267): reject duplicate username, then
duplicate email; otherwise append a record with id `max + 1`. -/
def register_user (s : St) (username email : String)
    (first last : Option String) : St × Res UserRec :=
  if s.users.any (fun u => u.username == username) then (s, Res.err Err.dupUsername)
  else if s.users.any (fun u => u.email == email) then (s, Res.err Err.dupEmail)
  else
    let u : UserRec := ⟨nextUserId s.users, username, email, first, last, true⟩
    ({ s with users := s.users ++ [u] }, Res.ok u)

/-- Connection setup in `websocket_endpoint` (lines 364-365):
`active_connections[user_id] = websocket`. -/
def wsConnect (s : St) (uid : Int) (ch : Channel) : St :=
  { s with connections := connInsert s.connections uid ch }

/-- Disconnect handling in `websocket_endpoint` (lines 371-372): the except
clause names `WebSocketDisconnect`, which is never imported (line 1 imports
only `FastAPI, Depends, HTTPException, status, Request, WebSocket`), so when
any exception leaves the `try` block, evaluating the except clause raises
`NameError` before the `active_connections.pop(user_id, None)` on line 372
can execute — the pop is unreachable, the connection task dies with
`NameError`, and the registry entry is never removed.  `_ch` is the
disconnecting task's own channel; neither it nor `_uid` is ever consulted. -/
def wsDisconnect (s : St) (_uid : Int) (_ch : Channel) : St × Res Unit :=
  (s, Res.err Err.nameError)

/-! ### Operation sequences -/

/-- One state-mutating operation of the program. -/
inductive Op where
  | register (username email : String) (first last : Option String)
  | deleteUser (uid : Int)
  | send (sender receiver : Int) (content : String) (now : Nat)
  | ws (sender : Int) (ev : WsEvent) (now : Nat)
  | getMessages (me other : Int)
  | createChat (me other : Int)
  | connect (uid : Int) (ch : Channel)
  | disconnect (uid : Int) (ch : Channel)

/-- The state transition of one operation (results discarded). -/
def step (s : St) : Op → St
  | Op.register username email first last => (register_user s username email first last).1
  | Op.deleteUser uid => (delete_user s uid).1
  | Op.send sender receiver content now => (send_message s sender receiver content now).1
  | Op.ws sender ev now => (handle_websocket_message s sender ev now).1
  | Op.getMessages me other => (get_chat_messages s me other).1
  | Op.createChat me other => (create_chat s me other).1
  | Op.connect uid ch => wsConnect s uid ch
  | Op.disconnect uid ch => (wsDisconnect s uid ch).1

/-- Run a sequence of operations from a starting state. -/
def run (s : St) (ops : List Op) : St := ops.foldl step s

/-! ### Orders on messages, decidability, and concrete states used by the
theorems below -/

/-- Strict order by message id. -/
def idLt (m1 m2 : Message) : Prop := m1.id < m2.id

instance : DecidableRel idLt := fun m1 m2 => inferInstanceAs (Decidable (m1.id < m2.id))

/-- The history order the spec requires: strictly earlier timestamp, or equal
timestamps and strictly smaller id. -/
def msgLex (m1 m2 : Message) : Prop :=
  m1.timestamp < m2.timestamp ∨ (m1.timestamp = m2.timestamp ∧ m1.id < m2.id)

instance : DecidableRel msgLex := fun m1 m2 =>
  inferInstanceAs (Decidable (m1.timestamp < m2.timestamp ∨
    (m1.timestamp = m2.timestamp ∧ m1.id < m2.id)))

/-- The non-negativity invariant of claim C3, as an executable predicate over
the whole chat store. -/
def chatsNonneg (s : St) : Bool := s.chats.all (fun c => decide (0 ≤ c.unread_count))

/-- A store with one user `alice` (id 1) and nothing else. -/
def stC5 : St := ⟨[⟨1, "alice", "a@example.com", none, none, true⟩], [], [], []⟩

/-- User 1 registered with channel 1, their only connection. -/
def stC6m : St := wsConnect St.empty 1 ⟨1, true⟩

/-- Users `alice` (id 1) and `bob` (id 2); no chats, messages or
connections. -/
def stC1 : St :=
  ⟨[⟨1, "alice", "a@example.com", none, none, true⟩,
    ⟨2, "bob", "b@example.com", none, none, true⟩], [], [], []⟩

/-- Like `stC1`, but user 2 is registered with a channel that is no longer
writable (its `send_json` raises). -/
def stC7 : St :=
  ⟨[⟨1, "alice", "a@example.com", none, none, true⟩,
    ⟨2, "bob", "b@example.com", none, none, true⟩], [], [], [(2, ⟨7, false⟩)]⟩

/-- Three stored messages with a timestamp tie between ids 1 and 2 and a
third message belonging to a different pair. -/
def st4 : St :=
  ⟨[⟨1, "alice", "a@example.com", none, none, true⟩,
    ⟨2, "bob", "b@example.com", none, none, true⟩], [],
   [⟨1, "a", 1, 2, 5, false⟩, ⟨2, "b", 2, 1, 5, false⟩, ⟨3, "c", 1, 3, 4, false⟩], []⟩

/-- The reachable state after registering `alice` and `bob` and `alice`
sending `"hi"` to `bob`: one message, one chat with `unread_count = 1`. -/
def stAB : St :=
  run St.empty
    [Op.register "alice" "a@example.com" none none,
     Op.register "bob" "b@example.com" none none,
     Op.send 1 2 "hi" 0]

/-- The `(last_message, unread_count)` summary carried by a successful
create-chat response (`none` when the call failed). -/
def respSummary : Res ChatResponse → Option (Option Message × Int)
  | Res.ok r => some (r.last_message, r.unread_count)
  | Res.err _ => none

/-! ### Helper lemmas -/

theorem frozensetHash2_comm (a b : Int) : frozensetHash2 a b = frozensetHash2 b a := by
  rcases eq_or_ne a b with h | h
  · rw [h]
  · unfold frozensetHash2
    simp only [if_neg h, if_neg (Ne.symm h), List.foldl_cons, List.foldl_nil,
      List.length_cons, List.length_nil, Nat.zero_xor]
    rw [Nat.xor_comm]

theorem frozensetHash2_min_max (a b : Int) :
    frozensetHash2 a b = frozensetHash2 (min a b) (max a b) := by
  rcases le_total a b with h | h
  · rw [min_eq_left h, max_eq_right h]
  · rw [min_eq_right h, max_eq_left h, frozensetHash2_comm]

attribute [irreducible] frozensetHash2

theorem get_or_create_chat_snd (s : St) (a b : Int) :
    (get_or_create_chat s a b).2 = frozensetHash2 a b := by
  simp only [get_or_create_chat]
  split <;> simp

theorem chatExists_get_or_create (s : St) (a b : Int) :
    chatExists (get_or_create_chat s a b).1 (frozensetHash2 a b) = true := by
  simp only [get_or_create_chat]
  split
  · assumption
  · simp [chatExists, List.any_append]

theorem get_or_create_chat_found (s : St) (a b : Int)
    (h : chatExists s (frozensetHash2 a b) = true) :
    get_or_create_chat s a b = (s, frozensetHash2 a b) := by
  unfold get_or_create_chat
  rw [if_pos h]

/-- C2: for all user ids `a` and `b`, `get_or_create_chat(a, b)` and
`get_or_create_chat(b, a)` return the same chat id; the canonical id is a
pure function of the unordered pair (it equals the id of the canonical
`(min, max)` ordering, so any two orderings of the same pair agree); and a
repeated call for the same unordered pair, in either order, returns the same
id and leaves the state unchanged — no second chat record is created. -/
theorem getOrCreateChat_canonical (s : St) (a b : Int) :
    (get_or_create_chat s a b).2 = (get_or_create_chat s b a).2 ∧
    (get_or_create_chat s a b).2 = (get_or_create_chat s (min a b) (max a b)).2 ∧
    get_or_create_chat (get_or_create_chat s a b).1 a b = get_or_create_chat s a b ∧
    get_or_create_chat (get_or_create_chat s a b).1 b a = get_or_create_chat s a b := by
  refine ⟨?_, ?_, ?_, ?_⟩
  · rw [get_or_create_chat_snd, get_or_create_chat_snd, frozensetHash2_comm]
  · rw [get_or_create_chat_snd, get_or_create_chat_snd, frozensetHash2_min_max]
  · have h := chatExists_get_or_create s a b
    rw [get_or_create_chat_found _ _ _ h, ← get_or_create_chat_snd s a b]
  · have h := chatExists_get_or_create s a b
    rw [frozensetHash2_comm a b] at h
    rw [get_or_create_chat_found _ _ _ h, frozensetHash2_comm b a,
      ← get_or_create_chat_snd s a b]

theorem get_or_create_chat_users (s : St) (a b : Int) :
    (get_or_create_chat s a b).1.users = s.users := by
  simp only [get_or_create_chat]
  split <;> rfl

theorem get_or_create_chat_messages (s : St) (a b : Int) :
    (get_or_create_chat s a b).1.messages = s.messages := by
  simp only [get_or_create_chat]
  split <;> rfl

theorem get_or_create_chat_connections (s : St) (a b : Int) :
    (get_or_create_chat s a b).1.connections = s.connections := by
  simp only [get_or_create_chat]
  split <;> rfl

theorem chatExists_updChat (chats : List ChatRec) (cid' cid : Int)
    (f : ChatRec → ChatRec) (hf : ∀ c, (f c).id = c.id) :
    (updChat chats cid' f).any (fun c => c.id == cid) =
      chats.any (fun c => c.id == cid) := by
  unfold updChat
  rw [List.any_map]
  congr 1
  funext c
  show ((if c.id == cid' then f c else c).id == cid) = (c.id == cid)
  split
  · rw [hf]
  · rfl

theorem send_message_not_found (s : St) (sender receiver : Int) (content : String)
    (now : Nat) (hex : userExists s receiver = false) :
    send_message s sender receiver content now = (s, Res.err Err.receiverNotFound) := by
  unfold send_message
  rw [hex]
  rfl

theorem send_message_messages (s : St) (sender receiver : Int) (content : String)
    (now : Nat) (hex : userExists s receiver = true) :
    (send_message s sender receiver content now).1.messages =
      s.messages ++ [⟨nextMsgId s.messages, content, sender, receiver, now, false⟩] := by
  simp only [send_message, hex, Bool.not_true, Bool.false_eq_true, if_false]
  exact get_or_create_chat_messages _ _ _

theorem send_message_users (s : St) (sender receiver : Int) (content : String)
    (now : Nat) (hex : userExists s receiver = true) :
    (send_message s sender receiver content now).1.users = s.users := by
  simp only [send_message, hex, Bool.not_true, Bool.false_eq_true, if_false]
  exact get_or_create_chat_users _ _ _

theorem send_message_connections (s : St) (sender receiver : Int) (content : String)
    (now : Nat) (hex : userExists s receiver = true) :
    (send_message s sender receiver content now).1.connections = s.connections := by
  simp only [send_message, hex, Bool.not_true, Bool.false_eq_true, if_false]
  exact get_or_create_chat_connections _ _ _

theorem send_message_res_offline (s : St) (sender receiver : Int) (content : String)
    (now : Nat) (hex : userExists s receiver = true)
    (hoff : connLookup s.connections receiver = none) :
    (send_message s sender receiver content now).2 =
      Res.ok ⟨nextMsgId s.messages, content, sender, receiver, now, false⟩ := by
  simp only [send_message, hex, Bool.not_true, Bool.false_eq_true, if_false]
  rw [get_or_create_chat_connections, hoff]

theorem send_message_res_dead_channel (s : St) (sender receiver : Int)
    (content : String) (now : Nat) (ch : Channel) (hex : userExists s receiver = true)
    (hch : connLookup s.connections receiver = some ch) (hw : ch.writable = false) :
    (send_message s sender receiver content now).2 = Res.err Err.pushFailed := by
  simp only [send_message, hex, Bool.not_true, Bool.false_eq_true, if_false]
  rw [get_or_create_chat_connections, hch]
  simp [hw]

theorem handle_ws_messages (s : St) (sender : Int) (ev : WsEvent) (now : Nat)
    (h : ev.type = "message") :
    (handle_websocket_message s sender ev now).1.messages =
      s.messages ++
        [⟨nextMsgId s.messages, ev.content, sender, ev.receiver_id, now, false⟩] := by
  simp only [handle_websocket_message, h, bne_self_eq_false, Bool.false_eq_true, if_false]
  exact get_or_create_chat_messages _ _ _

theorem handle_ws_chats_nonempty (s : St) (sender : Int) (ev : WsEvent) (now : Nat)
    (h : ev.type = "message") :
    chatExists (handle_websocket_message s sender ev now).1
      (frozensetHash2 sender ev.receiver_id) = true := by
  simp only [handle_websocket_message, h, bne_self_eq_false, Bool.false_eq_true, if_false]
  show (updChat _ _ _).any _ = true
  rw [chatExists_updChat]
  · exact chatExists_get_or_create _ _ _
  · intro c
    rfl

theorem handle_ws_res_ne (s : St) (sender : Int) (ev : WsEvent) (now : Nat) :
    (handle_websocket_message s sender ev now).2 ≠ Res.err Err.receiverNotFound := by
  unfold handle_websocket_message
  split
  · simp
  · dsimp only
    split
    · split <;> simp
    · simp

theorem markFn_eq_of_pos (me other : Int) (m : Message)
    (h : (betweenPair me other m && m.receiver_id == me && !m.is_read) = true) :
    markFn me other m = { m with is_read := true } := by
  unfold markFn
  rw [if_pos h]

theorem markFn_eq_of_neg (me other : Int) (m : Message)
    (h : ¬(betweenPair me other m && m.receiver_id == me && !m.is_read) = true) :
    markFn me other m = m := by
  unfold markFn
  rw [if_neg h]

theorem markFn_id (me other : Int) (m : Message) :
    (markFn me other m).id = m.id := by
  unfold markFn
  split <;> rfl

theorem markFn_timestamp (me other : Int) (m : Message) :
    (markFn me other m).timestamp = m.timestamp := by
  unfold markFn
  split <;> rfl

theorem markFn_receiver (me other : Int) (m : Message) :
    (markFn me other m).receiver_id = m.receiver_id := by
  unfold markFn
  split <;> rfl

theorem betweenPair_markFn (me other : Int) (m : Message) :
    betweenPair me other (markFn me other m) = betweenPair me other m := by
  unfold markFn
  split <;> rfl

theorem markFn_idem (me other : Int) (m : Message) :
    markFn me other (markFn me other m) = markFn me other m := by
  by_cases h : (betweenPair me other m && m.receiver_id == me && !m.is_read) = true
  · rw [markFn_eq_of_pos me other m h]
    apply markFn_eq_of_neg
    simp
  · rw [markFn_eq_of_neg me other m h, markFn_eq_of_neg me other m h]

theorem markFn_is_read (me other : Int) (m : Message)
    (hp : betweenPair me other m = true) (hr : (m.receiver_id == me) = true) :
    (markFn me other m).is_read = true := by
  by_cases h : m.is_read = true
  · rw [markFn_eq_of_neg]
    · exact h
    · simp [hp, hr, h]
  · simp only [Bool.not_eq_true] at h
    rw [markFn_eq_of_pos]
    simp [hp, hr, h]

theorem get_chat_messages_snd (s : St) (me other : Int) :
    (get_chat_messages s me other).2 =
      sortByTs ((s.messages.filter (betweenPair me other)).map (markFn me other)) := by
  unfold get_chat_messages
  dsimp only
  rw [get_or_create_chat_messages]

theorem get_chat_messages_fst_messages (s : St) (me other : Int) :
    (get_chat_messages s me other).1.messages = s.messages.map (markFn me other) := by
  unfold get_chat_messages
  dsimp only
  rw [get_or_create_chat_messages]

theorem get_chat_messages_fst_users (s : St) (me other : Int) :
    (get_chat_messages s me other).1.users = s.users := by
  unfold get_chat_messages
  dsimp only
  rw [get_or_create_chat_users]

theorem get_chat_messages_fst_connections (s : St) (me other : Int) :
    (get_chat_messages s me other).1.connections = s.connections := by
  unfold get_chat_messages
  dsimp only
  rw [get_or_create_chat_connections]

theorem get_chat_messages_fst_chats (s : St) (me other : Int) :
    (get_chat_messages s me other).1.chats =
      updChat (get_or_create_chat s me other).1.chats (frozensetHash2 me other)
        (fun c => { c with unread_count := decN c.unread_count ((s.messages.filter (betweenPair me other)).filter (fun m => m.receiver_id == me && !m.is_read)).length }) := by
  unfold get_chat_messages
  dsimp only
  rw [get_or_create_chat_snd, get_or_create_chat_messages]

theorem insertTs_perm (m : Message) (l : List Message) :
    (insertTs m l).Perm (m :: l) := by
  induction l with
  | nil => exact List.Perm.refl _
  | cons y t ih =>
    unfold insertTs
    split
    · exact List.Perm.refl _
    · exact (List.Perm.cons y ih).trans (List.Perm.swap m y t)

theorem sortByTs_perm (l : List Message) : (sortByTs l).Perm l := by
  induction l with
  | nil => exact List.Perm.refl _
  | cons x t ih => exact (insertTs_perm x (sortByTs t)).trans (List.Perm.cons x ih)

theorem msgLex_of_le (x z : Message) (h1 : x.timestamp ≤ z.timestamp)
    (h2 : x.id < z.id) : msgLex x z := by
  rcases lt_or_eq_of_le h1 with h | h
  · exact Or.inl h
  · exact Or.inr ⟨h, h2⟩

theorem msgLex_ts_le (x z : Message) (h : msgLex x z) :
    x.timestamp ≤ z.timestamp := by
  rcases h with h | ⟨h, _⟩
  · exact le_of_lt h
  · exact le_of_eq h

theorem insertTs_pairwise (x : Message) (l : List Message)
    (hl : l.Pairwise msgLex) (hid : ∀ y ∈ l, x.id < y.id) :
    (insertTs x l).Pairwise msgLex := by
  induction l with
  | nil => exact List.pairwise_singleton _ _
  | cons y t ih =>
    rw [List.pairwise_cons] at hl
    obtain ⟨hy, ht⟩ := hl
    unfold insertTs
    split
    case isTrue hle =>
      refine List.Pairwise.cons ?_ (List.Pairwise.cons hy ht)
      intro z hz
      rcases List.mem_cons.mp hz with rfl | hz'
      · exact msgLex_of_le x z hle (hid z (List.mem_cons_self _ _))
      · exact msgLex_of_le x z (le_trans hle (msgLex_ts_le y z (hy z hz')))
          (hid z (List.mem_cons_of_mem _ hz'))
    case isFalse hgt =>
      refine List.Pairwise.cons ?_ (ih ht (fun z hz => hid z (List.mem_cons_of_mem _ hz)))
      intro z hz
      rcases List.mem_cons.mp ((insertTs_perm x t).mem_iff.mp hz) with rfl | hz'
      · exact Or.inl (lt_of_not_le hgt)
      · exact hy z hz'

theorem sortByTs_pairwise (l : List Message)
    (h : l.Pairwise (fun m1 m2 => m1.id < m2.id)) :
    (sortByTs l).Pairwise msgLex := by
  induction l with
  | nil => exact List.Pairwise.nil
  | cons x t ih =>
    rw [List.pairwise_cons] at h
    exact insertTs_pairwise x (sortByTs t) (ih h.2)
      (fun y hy => h.1 y ((sortByTs_perm t).mem_iff.mp hy))

/-- C4: for every pair of users, `get_chat_messages` returns exactly the
messages exchanged between them (a permutation of the store's between-pair
messages, after the read-marking side effect), sorted in non-decreasing
timestamp order with equal-timestamp messages ordered by id ascending.  The
hypothesis — message ids strictly increase along `messages_db`'s iteration
order — holds in every reachable store because ids are assigned `max + 1`
and nothing is ever deleted (see `run_messages_sorted`); Python's `sorted`
is stable, so equal timestamps keep that id-ascending order. -/
theorem getChatMessages_history (s : St) (me other : Int)
    (hs : s.messages.Pairwise idLt) :
    ((get_chat_messages s me other).2).Perm
      ((get_chat_messages s me other).1.messages.filter (betweenPair me other)) ∧
    ((get_chat_messages s me other).2).Pairwise msgLex := by
  rw [get_chat_messages_snd, get_chat_messages_fst_messages]
  constructor
  · have hcomm : (s.messages.map (markFn me other)).filter (betweenPair me other)
        = (s.messages.filter (betweenPair me other)).map (markFn me other) := by
      rw [List.filter_map]
      congr 1
      apply List.filter_congr
      intro m _
      exact betweenPair_markFn me other m
    rw [hcomm]
    exact sortByTs_perm _
  · apply sortByTs_pairwise
    have h1 : (s.messages.filter (betweenPair me other)).Pairwise idLt :=
      List.Pairwise.sublist (List.filter_sublist _) hs
    exact h1.map _ (fun a b hab => by
      show (markFn me other a).id < (markFn me other b).id
      rw [markFn_id, markFn_id]
      exact hab)

theorem getChatMessages_history_witness :
    st4.messages.Pairwise idLt ∧
    (((get_chat_messages st4 1 2).2).Perm
      ((get_chat_messages st4 1 2).1.messages.filter (betweenPair 1 2)) ∧
     ((get_chat_messages st4 1 2).2).Pairwise msgLex) :=
  ⟨by decide, getChatMessages_history st4 1 2 (by decide)⟩

/-- C1: a `send_message` whose receiver exists in `users_db` but has no
entry in `active_connections` appends the message to `messages_db` and
returns it (no push is attempted on an absent connection, and the append at
line 532 precedes the push block at lines 540-545, so the record is durable
regardless); a later `get_chat_messages` by the receiver for that pair
returns the message (now marked read). -/
theorem sendMessage_offline_durable (s : St) (sender receiver : Int)
    (content : String) (now : Nat) (hex : userExists s receiver = true)
    (hoff : connLookup s.connections receiver = none) :
    (send_message s sender receiver content now).2
        = Res.ok ⟨nextMsgId s.messages, content, sender, receiver, now, false⟩ ∧
    (⟨nextMsgId s.messages, content, sender, receiver, now, false⟩ : Message)
        ∈ (send_message s sender receiver content now).1.messages ∧
    (⟨nextMsgId s.messages, content, sender, receiver, now, true⟩ : Message)
        ∈ (get_chat_messages (send_message s sender receiver content now).1
            receiver sender).2 := by
  refine ⟨send_message_res_offline s sender receiver content now hex hoff, ?_, ?_⟩
  · rw [send_message_messages s sender receiver content now hex]
    exact List.mem_append_right _ (List.mem_singleton_self _)
  · rw [get_chat_messages_snd]
    apply (sortByTs_perm _).mem_iff.mpr
    rw [send_message_messages s sender receiver content now hex]
    apply List.mem_map.mpr
    refine ⟨⟨nextMsgId s.messages, content, sender, receiver, now, false⟩, ?_, ?_⟩
    · apply List.mem_filter.mpr
      refine ⟨List.mem_append_right _ (List.mem_singleton_self _), ?_⟩
      simp [betweenPair]
    · rw [markFn_eq_of_pos]
      simp [betweenPair]

theorem sendMessage_offline_durable_witness :
    userExists stC1 2 = true ∧ connLookup stC1.connections 2 = none ∧
    ((send_message stC1 1 2 "hi" 0).2
        = Res.ok ⟨nextMsgId stC1.messages, "hi", 1, 2, 0, false⟩ ∧
     (⟨nextMsgId stC1.messages, "hi", 1, 2, 0, false⟩ : Message)
        ∈ (send_message stC1 1 2 "hi" 0).1.messages ∧
     (⟨nextMsgId stC1.messages, "hi", 1, 2, 0, true⟩ : Message)
        ∈ (get_chat_messages (send_message stC1 1 2 "hi" 0).1 2 1).2) :=
  ⟨by decide, rfl, sendMessage_offline_durable stC1 1 2 "hi" 0 (by decide) rfl⟩

/-- C5 counterexample: no user with id 99 exists, yet the inbound
`'message'` event for receiver 99 succeeds — the message is recorded and the
chat is created, with no `RecipientNotFound` failure: the websocket send
path never consults the user store. -/
theorem handleWs_missing_receiver_recorded :
    userExists stC5 99 = false ∧
    (handle_websocket_message stC5 1 ⟨"message", 99, "hi"⟩ 0).2 = Res.ok () ∧
    (handle_websocket_message stC5 1 ⟨"message", 99, "hi"⟩ 0).1.messages =
      [⟨1, "hi", 1, 99, 0, false⟩] ∧
    (handle_websocket_message stC5 1 ⟨"message", 99, "hi"⟩ 0).1.chats ≠ [] := by
  decide

/-- C5 amended: `handle_websocket_message` performs no receiver-existence
check: every inbound event of kind `'message'` records the message in
`messages_db` and creates/updates the chat whatever `receiver_id` is, and
the outcome is never a `RecipientNotFound` failure.  Only the REST
`send_message` endpoint verifies the receiver against the user store. -/
theorem handleWs_records_unconditionally (s : St) (sender : Int) (ev : WsEvent)
    (now : Nat) (h : ev.type = "message") :
    (⟨nextMsgId s.messages, ev.content, sender, ev.receiver_id, now, false⟩ : Message)
        ∈ (handle_websocket_message s sender ev now).1.messages ∧
    chatExists (handle_websocket_message s sender ev now).1
        (frozensetHash2 sender ev.receiver_id) = true ∧
    (handle_websocket_message s sender ev now).2 ≠ Res.err Err.receiverNotFound := by
  refine ⟨?_, handle_ws_chats_nonempty s sender ev now h, handle_ws_res_ne s sender ev now⟩
  rw [handle_ws_messages s sender ev now h]
  exact List.mem_append_right _ (List.mem_singleton_self _)

theorem handleWs_records_unconditionally_witness :
    (⟨"message", 99, "hi"⟩ : WsEvent).type = "message" ∧
    ((⟨nextMsgId stC5.messages, "hi", 1, 99, 0, false⟩ : Message)
        ∈ (handle_websocket_message stC5 1 ⟨"message", 99, "hi"⟩ 0).1.messages ∧
     chatExists (handle_websocket_message stC5 1 ⟨"message", 99, "hi"⟩ 0).1
        (frozensetHash2 1 99) = true ∧
     (handle_websocket_message stC5 1 ⟨"message", 99, "hi"⟩ 0).2
        ≠ Res.err Err.receiverNotFound) :=
  ⟨rfl, handleWs_records_unconditionally stC5 1 ⟨"message", 99, "hi"⟩ 0 rfl⟩

/-- C6 counterexample: disconnect removes nothing.  User 1's only
registration is channel 1; channel 1's own disconnect — the case in which
the claim's guarded unregister would remove the entry, the current entry
being the disconnecting channel itself — leaves the entry in place, because
the except clause fails on the unimported `WebSocketDisconnect` name with
`NameError` before the pop on line 372 can run. -/
theorem matchingDisconnect_leaves_entry :
    connLookup stC6m.connections 1 = some ⟨1, true⟩ ∧
    (wsDisconnect stC6m 1 ⟨1, true⟩).2 = Res.err Err.nameError ∧
    connLookup ((wsDisconnect stC6m 1 ⟨1, true⟩).1).connections 1
      = some ⟨1, true⟩ := by
  decide

/-- C6 amended: no disconnect ever removes a connection-registry entry: the
except clause at line 371 names `WebSocketDisconnect`, which is never
imported, so the handler raises `NameError` before the
`active_connections.pop(user_id, None)` on line 372 can run.  Every
disconnect leaves the whole registry — in particular the disconnecting
user's entry — exactly as it was; a stale disconnect thus does leave the
newer channel registered, but only because nothing is ever unregistered,
and even a matching disconnect leaves its own dead channel registered. -/
theorem wsDisconnect_never_removes (s : St) (uid : Int) (ch : Channel) :
    (wsDisconnect s uid ch).1 = s ∧
    (wsDisconnect s uid ch).2 = Res.err Err.nameError ∧
    connLookup ((wsDisconnect s uid ch).1).connections uid
      = connLookup s.connections uid :=
  ⟨rfl, rfl, rfl⟩

/-- C7 counterexample: in `stC7` the receiver (user 2) is registered with a
channel whose send fails; `send_message` has already appended the message,
but the unhandled `send_json` failure propagates out of the call — the
persisted message is not returned. -/
theorem sendMessage_dead_channel_raises :
    (send_message stC7 1 2 "hi" 0).2 = Res.err Err.pushFailed ∧
    (send_message stC7 1 2 "hi" 0).1.messages = [⟨1, "hi", 1, 2, 0, false⟩] := by
  decide

/-- C7 amended: when the receiver is registered but the channel send fails,
the exception propagates out of `send_message` — there is no handler around
the `send_json` at line 541 — so the call does not return the persisted
message; the message append and chat update happened before the push, so the
message is nevertheless durably recorded. -/
theorem sendMessage_push_raises (s : St) (sender receiver : Int) (content : String)
    (now : Nat) (ch : Channel) (hex : userExists s receiver = true)
    (hch : connLookup s.connections receiver = some ch) (hw : ch.writable = false) :
    (send_message s sender receiver content now).2 = Res.err Err.pushFailed ∧
    (⟨nextMsgId s.messages, content, sender, receiver, now, false⟩ : Message)
        ∈ (send_message s sender receiver content now).1.messages := by
  refine ⟨send_message_res_dead_channel s sender receiver content now ch hex hch hw, ?_⟩
  rw [send_message_messages s sender receiver content now hex]
  exact List.mem_append_right _ (List.mem_singleton_self _)

theorem sendMessage_push_raises_witness :
    userExists stC7 2 = true ∧ connLookup stC7.connections 2 = some ⟨7, false⟩ ∧
    (⟨7, false⟩ : Channel).writable = false ∧
    ((send_message stC7 1 2 "hi" 0).2 = Res.err Err.pushFailed ∧
     (⟨nextMsgId stC7.messages, "hi", 1, 2, 0, false⟩ : Message)
        ∈ (send_message stC7 1 2 "hi" 0).1.messages) :=
  ⟨by decide, by decide, rfl,
   sendMessage_push_raises stC7 1 2 "hi" 0 ⟨7, false⟩ (by decide) (by decide) rfl⟩

theorem any_id_eraseP_false (users : List UserRec) (uid : Int)
    (h : (users.map (fun u => u.id)).Nodup) :
    (users.eraseP (fun u => u.id == uid)).any (fun u => u.id == uid) = false := by
  induction users with
  | nil => rfl
  | cons hd tl ih =>
    rw [List.map_cons, List.nodup_cons] at h
    by_cases hk : (hd.id == uid) = true
    · simp only [List.eraseP_cons, hk, cond_true]
      rw [List.any_eq_false]
      intro x hx hpx
      exact h.1 (eq_of_beq hk ▸ eq_of_beq hpx ▸
        List.mem_map_of_mem (fun u => u.id) hx)
    · have hkf : (hd.id == uid) = false := by simpa using hk
      simp only [List.eraseP_cons, hkf, cond_false, List.any_cons, hkf,
        Bool.false_or]
      exact ih h.2

/-- C9 counterexample: in the reachable state `stAB` user 2 (`bob`) is
referenced by a stored message as receiver; `delete_user 2` nevertheless
succeeds and removes the user record outright — neither a soft-delete nor a
rejection — leaving the stored message's `receiver_id` referring to no
user record. -/
theorem deleteUser_dangling_reference :
    (stAB.messages.any (fun m => m.receiver_id == 2)) = true ∧
    userExists stAB 2 = true ∧
    (delete_user stAB 2).2 = Res.ok () ∧
    userExists (delete_user stAB 2).1 2 = false ∧
    ((delete_user stAB 2).1.messages.any (fun m => m.receiver_id == 2)) = true := by
  decide

/-- C9 amended: `delete_user` hard-deletes, up to one truthiness quirk:
when the first stored user record with the given id has a non-empty
username, the call removes that record outright and reports success, and
the message store is untouched — no soft-delete and no referential-integrity
rejection, so messages keep `sender_id`/`receiver_id` values that may now
refer to no user record.  The only rejection paths (404, nothing deleted)
are a missing user, or a matched user whose username is the empty string:
line 354 tests `if not user_key` on the username string.  The id-uniqueness
hypothesis holds in every state the program builds, since registration
assigns `max + 1`.  (Additionally, line 359's `Response` is an unimported
name, so the real endpoint raises `NameError` after deleting; the stores end
in the same state either way.) -/
theorem deleteUser_hard (s : St) (uid : Int) (u : UserRec)
    (hf : s.users.find? (fun v => v.id == uid) = some u)
    (hn : ¬u.username = "")
    (hu : (s.users.map (fun v => v.id)).Nodup) :
    (delete_user s uid).2 = Res.ok () ∧
    userExists (delete_user s uid).1 uid = false ∧
    (delete_user s uid).1.messages = s.messages := by
  unfold delete_user
  rw [hf]
  dsimp only
  rw [if_neg hn]
  exact ⟨rfl, any_id_eraseP_false s.users uid hu, rfl⟩

theorem deleteUser_hard_witness :
    stAB.users.find? (fun v => v.id == 2)
        = some ⟨2, "bob", "b@example.com", none, none, true⟩ ∧
    ¬(⟨2, "bob", "b@example.com", none, none, true⟩ : UserRec).username = "" ∧
    (stAB.users.map (fun v => v.id)).Nodup ∧
    ((delete_user stAB 2).2 = Res.ok () ∧
     userExists (delete_user stAB 2).1 2 = false ∧
     (delete_user stAB 2).1.messages = stAB.messages) :=
  ⟨by decide, by decide, by decide,
   deleteUser_hard stAB 2 ⟨2, "bob", "b@example.com", none, none, true⟩
     (by decide) (by decide) (by decide)⟩

/-- C10: whenever the target user exists (the only failure path is the 404
check), the create-or-get chat endpoint's response carries literal
`last_message = None` and `unread_count = 0` (source lines 455-456),
regardless of the stored chat's actual `last_message` and `unread_count` —
also when the chat already exists with recorded messages and a nonzero
unread counter, as the witness state shows. -/
theorem createChat_fresh_summary (s : St) (me other_user_id : Int)
    (hex : userExists s other_user_id = true) :
    respSummary (create_chat s me other_user_id).2 = some (none, 0) := by
  unfold create_chat
  rcases hf : s.users.find? (fun u => u.id == other_user_id) with _ | other
  · exfalso
    rw [List.find?_eq_none] at hf
    rw [userExists, List.any_eq_true] at hex
    obtain ⟨u, hu, hpu⟩ := hex
    exact hf u hu hpu
  · rw [hf]
    dsimp only
    rcases hc : chatLookup (get_or_create_chat s me other_user_id).1
        (get_or_create_chat s me other_user_id).2 with _ | chat
    · exfalso
      have hex2 := chatExists_get_or_create s me other_user_id
      rw [← get_or_create_chat_snd s me other_user_id] at hex2
      unfold chatExists at hex2
      rw [List.any_eq_true] at hex2
      obtain ⟨c, hcm, hcp⟩ := hex2
      unfold chatLookup at hc
      rw [List.find?_eq_none] at hc
      exact hc c hcm hcp
    · rfl

theorem createChat_fresh_summary_witness :
    userExists stAB 2 = true ∧
    respSummary (create_chat stAB 1 2).2 = some (none, 0) :=
  ⟨by decide, createChat_fresh_summary stAB 1 2 (by decide)⟩

theorem register_user_chats (s : St) (username email : String)
    (first last : Option String) :
    (register_user s username email first last).1.chats = s.chats := by
  unfold register_user
  split
  · rfl
  · split <;> rfl

theorem register_user_messages (s : St) (username email : String)
    (first last : Option String) :
    (register_user s username email first last).1.messages = s.messages := by
  unfold register_user
  split
  · rfl
  · split <;> rfl

theorem delete_user_chats (s : St) (uid : Int) :
    (delete_user s uid).1.chats = s.chats := by
  unfold delete_user
  split
  · rfl
  · split <;> rfl

theorem delete_user_messages (s : St) (uid : Int) :
    (delete_user s uid).1.messages = s.messages := by
  unfold delete_user
  split
  · rfl
  · split <;> rfl

theorem create_chat_messages (s : St) (me other : Int) :
    (create_chat s me other).1.messages = s.messages := by
  unfold create_chat
  rcases hf : s.users.find? (fun u => u.id == other) with _ | u
  · rw [hf]
  · rw [hf]
    dsimp only
    rcases hc : chatLookup (get_or_create_chat s me other).1
        (get_or_create_chat s me other).2 with _ | chat
    · exact get_or_create_chat_messages s me other
    · exact get_or_create_chat_messages s me other

theorem handle_ws_skip (s : St) (sender : Int) (ev : WsEvent) (now : Nat)
    (h : ¬ev.type = "message") :
    handle_websocket_message s sender ev now = (s, Res.ok ()) := by
  unfold handle_websocket_message
  rw [if_pos (by simpa [bne_iff_ne] using h)]

theorem decN_nonneg (x : Int) (n : Nat) (h : 0 ≤ x) : 0 ≤ decN x n := by
  induction n generalizing x with
  | zero => exact h
  | succ n ih => exact ih _ (le_max_left 0 _)

theorem all_updChat (chats : List ChatRec) (cid : Int) (f : ChatRec → ChatRec)
    (q : ChatRec → Bool) (hf : ∀ c, q c = true → q (f c) = true)
    (h : chats.all q = true) : (updChat chats cid f).all q = true := by
  unfold updChat
  rw [List.all_eq_true] at h ⊢
  intro x hx
  obtain ⟨c, hc, rfl⟩ := List.mem_map.mp hx
  split
  · exact hf c (h c hc)
  · exact h c hc

theorem chatsNonneg_get_or_create (s : St) (a b : Int) (h : chatsNonneg s = true) :
    chatsNonneg (get_or_create_chat s a b).1 = true := by
  unfold chatsNonneg at h ⊢
  simp only [get_or_create_chat]
  split
  · exact h
  · show (s.chats ++ [_]).all _ = true
    rw [List.all_append, h]
    rfl

theorem chatsNonneg_send (s : St) (sender receiver : Int) (content : String)
    (now : Nat) (h : chatsNonneg s = true) :
    chatsNonneg (send_message s sender receiver content now).1 = true := by
  by_cases hex : userExists s receiver = true
  · simp only [send_message, hex, Bool.not_true, Bool.false_eq_true, if_false]
    show (updChat _ _ _).all _ = true
    apply all_updChat
    · intro c hc
      simp only [decide_eq_true_eq] at hc ⊢
      omega
    · exact chatsNonneg_get_or_create _ sender receiver h
  · have hexf : userExists s receiver = false := by simpa using hex
    rw [send_message_not_found s sender receiver content now hexf]
    exact h

theorem chatsNonneg_ws (s : St) (sender : Int) (ev : WsEvent) (now : Nat)
    (h : chatsNonneg s = true) :
    chatsNonneg (handle_websocket_message s sender ev now).1 = true := by
  by_cases ht : ev.type = "message"
  · simp only [handle_websocket_message, ht, bne_self_eq_false, Bool.false_eq_true,
      if_false]
    show (updChat _ _ _).all _ = true
    apply all_updChat
    · intro c hc
      simp only [decide_eq_true_eq] at hc ⊢
      omega
    · exact chatsNonneg_get_or_create _ sender ev.receiver_id h
  · rw [handle_ws_skip s sender ev now ht]
    exact h

theorem chatsNonneg_getMessages (s : St) (me other : Int)
    (h : chatsNonneg s = true) :
    chatsNonneg (get_chat_messages s me other).1 = true := by
  unfold chatsNonneg
  rw [get_chat_messages_fst_chats]
  apply all_updChat
  · intro c hc
    simp only [decide_eq_true_eq] at hc ⊢
    exact decN_nonneg _ _ hc
  · exact chatsNonneg_get_or_create s me other h

theorem chatsNonneg_createChat (s : St) (me other : Int)
    (h : chatsNonneg s = true) :
    chatsNonneg (create_chat s me other).1 = true := by
  unfold create_chat
  rcases hf : s.users.find? (fun u => u.id == other) with _ | u
  · rw [hf]
    exact h
  · rw [hf]
    dsimp only
    rcases hc : chatLookup (get_or_create_chat s me other).1
        (get_or_create_chat s me other).2 with _ | chat
    · exact chatsNonneg_get_or_create s me other h
    · exact chatsNonneg_get_or_create s me other h

theorem chatsNonneg_step (s : St) (op : Op) (h : chatsNonneg s = true) :
    chatsNonneg (step s op) = true := by
  cases op with
  | register username email first last =>
    show chatsNonneg (register_user s username email first last).1 = true
    unfold chatsNonneg
    rw [register_user_chats]
    exact h
  | deleteUser uid =>
    show chatsNonneg (delete_user s uid).1 = true
    unfold chatsNonneg
    rw [delete_user_chats]
    exact h
  | send sender receiver content now => exact chatsNonneg_send s sender receiver content now h
  | ws sender ev now => exact chatsNonneg_ws s sender ev now h
  | getMessages me other => exact chatsNonneg_getMessages s me other h
  | createChat me other => exact chatsNonneg_createChat s me other h
  | connect uid ch => exact h
  | disconnect uid ch => exact h

theorem chatsNonneg_run (ops : List Op) : ∀ s, chatsNonneg s = true →
    chatsNonneg (run s ops) = true := by
  induction ops with
  | nil => exact fun s h => h
  | cons op t ih => exact fun s h => ih _ (chatsNonneg_step s op h)

/-- C3: after any sequence of operations starting from the empty store —
in particular any sequence of `send_message`, `handle_websocket_message`
and `get_chat_messages` calls — every chat's `unread_count` is
non-negative: sends only increment it, and the read-marking decrement is
clamped with `max(0, · - 1)` (line 506). -/
theorem unreadCount_nonneg (ops : List Op) :
    chatsNonneg (run St.empty ops) = true :=
  chatsNonneg_run ops St.empty rfl

theorem init_le_foldl_max (l : List Nat) (a : Nat) : a ≤ l.foldl max a := by
  induction l generalizing a with
  | nil => exact le_refl a
  | cons y t ih => exact le_trans (le_max_left a y) (ih (max a y))

theorem le_foldl_max (l : List Nat) (a : Nat) (x : Nat) (hx : x ∈ l) :
    x ≤ l.foldl max a := by
  induction l generalizing a with
  | nil => cases hx
  | cons y t ih =>
    rcases List.mem_cons.mp hx with rfl | h
    · exact le_trans (le_max_right a x) (init_le_foldl_max t (max a x))
    · exact ih (max a y) h

theorem mem_id_lt_nextMsgId (msgs : List Message) (m : Message) (hm : m ∈ msgs) :
    m.id < nextMsgId msgs :=
  Nat.lt_succ_of_le (le_foldl_max _ 0 _ (List.mem_map_of_mem (fun x => x.id) hm))

theorem pairwise_append_new (msgs : List Message) (m : Message)
    (h : msgs.Pairwise idLt) (hm : ∀ x ∈ msgs, x.id < m.id) :
    (msgs ++ [m]).Pairwise idLt := by
  rw [List.pairwise_append]
  exact ⟨h, List.pairwise_singleton _ _, fun x hx y hy => by
    rw [List.mem_singleton.mp hy]
    exact hm x hx⟩

theorem step_messages_sorted (s : St) (op : Op)
    (h : s.messages.Pairwise idLt) : (step s op).messages.Pairwise idLt := by
  cases op with
  | register username email first last =>
    show (register_user s username email first last).1.messages.Pairwise idLt
    rw [register_user_messages]
    exact h
  | deleteUser uid =>
    show (delete_user s uid).1.messages.Pairwise idLt
    rw [delete_user_messages]
    exact h
  | send sender receiver content now =>
    show (send_message s sender receiver content now).1.messages.Pairwise idLt
    by_cases hex : userExists s receiver = true
    · rw [send_message_messages s sender receiver content now hex]
      exact pairwise_append_new _ _ h (fun x hx => mem_id_lt_nextMsgId s.messages x hx)
    · have hexf : userExists s receiver = false := by simpa using hex
      rw [send_message_not_found s sender receiver content now hexf]
      exact h
  | ws sender ev now =>
    show (handle_websocket_message s sender ev now).1.messages.Pairwise idLt
    by_cases ht : ev.type = "message"
    · rw [handle_ws_messages s sender ev now ht]
      exact pairwise_append_new _ _ h (fun x hx => mem_id_lt_nextMsgId s.messages x hx)
    · rw [handle_ws_skip s sender ev now ht]
      exact h
  | getMessages me other =>
    show (get_chat_messages s me other).1.messages.Pairwise idLt
    rw [get_chat_messages_fst_messages]
    exact h.map _ (fun a b hab => by
      show (markFn me other a).id < (markFn me other b).id
      rw [markFn_id, markFn_id]
      exact hab)
  | createChat me other =>
    show (create_chat s me other).1.messages.Pairwise idLt
    rw [create_chat_messages]
    exact h
  | connect uid ch => exact h
  | disconnect uid ch => exact h

theorem run_messages_sorted_aux (ops : List Op) : ∀ s, s.messages.Pairwise idLt →
    (run s ops).messages.Pairwise idLt := by
  induction ops with
  | nil => exact fun s h => h
  | cons op t ih => exact fun s h => ih _ (step_messages_sorted s op h)

/-- In every store reachable from the empty one, `messages_db`'s iteration
order is strictly id-ascending — ids are assigned `max + 1` and messages are
never removed — which discharges `getChatMessages_history`'s hypothesis for
all real program runs. -/
theorem run_messages_sorted (ops : List Op) :
    (run St.empty ops).messages.Pairwise idLt :=
  run_messages_sorted_aux ops St.empty List.Pairwise.nil

theorem St.ext' (a b : St) (h1 : a.users = b.users) (h2 : a.chats = b.chats)
    (h3 : a.messages = b.messages) (h4 : a.connections = b.connections) :
    a = b := by
  cases a
  cases b
  cases h1
  cases h2
  cases h3
  cases h4
  rfl

theorem filter_between_map_markFn (me other : Int) (l : List Message) :
    (l.map (markFn me other)).filter (betweenPair me other)
      = (l.filter (betweenPair me other)).map (markFn me other) := by
  rw [List.filter_map]
  congr 1
  apply List.filter_congr
  intro m _
  exact betweenPair_markFn me other m

theorem map_markFn_idem (me other : Int) (l : List Message) :
    (l.map (markFn me other)).map (markFn me other) = l.map (markFn me other) := by
  rw [List.map_map]
  congr 1
  funext m
  exact markFn_idem me other m

theorem filter_unread_marked_nil (me other : Int) (l : List Message) :
    (((l.map (markFn me other)).filter (betweenPair me other)).filter
      (fun m => m.receiver_id == me && !m.is_read)) = [] := by
  rw [List.filter_eq_nil_iff]
  intro m hm
  obtain ⟨hml, hp⟩ := List.mem_filter.mp hm
  obtain ⟨m0, hm0, rfl⟩ := List.mem_map.mp hml
  by_cases hr : ((markFn me other m0).receiver_id == me) = true
  · have hp0 : betweenPair me other m0 = true := by
      rwa [betweenPair_markFn] at hp
    have hr0 : (m0.receiver_id == me) = true := by
      rwa [markFn_receiver] at hr
    have hread := markFn_is_read me other m0 hp0 hr0
    simp [hread]
  · simp [hr]

theorem updChat_decN_zero (chats : List ChatRec) (cid : Int) :
    updChat chats cid (fun c => { c with unread_count := decN c.unread_count 0 })
      = chats := by
  unfold updChat
  have hfun : (fun (c : ChatRec) =>
      if c.id == cid then { c with unread_count := decN c.unread_count 0 } else c)
      = fun c => c :=
    funext (fun c => by split <;> rfl)
  rw [hfun, List.map_id']

theorem chatExists_gcm (s : St) (me other : Int) :
    chatExists (get_chat_messages s me other).1 (frozensetHash2 me other) = true := by
  unfold chatExists
  rw [get_chat_messages_fst_chats]
  rw [chatExists_updChat]
  · exact chatExists_get_or_create s me other
  · intro c
    rfl

/-- C8: re-marking already-read messages is a no-op: a second
`get_chat_messages` call by the same reader against the same peer returns
the very same state and history list as the first call — no message's
`is_read` flag changes and no chat's `unread_count` changes, because after
the first call no between-pair message addressed to the reader is still
unread (so the clamped decrement runs zero times) and the chat record
already exists. -/
theorem getChatMessages_idempotent (s : St) (me other : Int) :
    get_chat_messages (get_chat_messages s me other).1 me other
      = get_chat_messages s me other := by
  apply Prod.ext
  · apply St.ext'
    · rw [get_chat_messages_fst_users]
    · rw [get_chat_messages_fst_chats]
      have hfound := get_or_create_chat_found (get_chat_messages s me other).1
        me other (chatExists_gcm s me other)
      rw [hfound]
      have h0 : ((((get_chat_messages s me other).1.messages).filter
          (betweenPair me other)).filter
            (fun m => m.receiver_id == me && !m.is_read)) = [] := by
        rw [get_chat_messages_fst_messages]
        exact filter_unread_marked_nil me other s.messages
      rw [h0]
      exact updChat_decN_zero _ _
    · rw [get_chat_messages_fst_messages, get_chat_messages_fst_messages]
      exact map_markFn_idem me other s.messages
    · rw [get_chat_messages_fst_connections]
  · rw [get_chat_messages_snd, get_chat_messages_snd, get_chat_messages_fst_messages,
      filter_between_map_markFn, map_markFn_idem]
